import Mathlib

/-!
Shallow embedding of the primrose-mcp-jira repository (a multi-tenant
Jira MCP server) and verification of its specification's claims.

The embedding follows the TypeScript sources:
* `src/types/env.ts`        — tenant credential parsing and validation,
                              numeric environment configuration.
* `src/client.ts`           — auth header construction, HTTP status
                              classification, vendor error-message
                              extraction, ADF coercion, pagination
                              reshaping of vendor list envelopes.
* `src/index.ts`            — worker `fetch` routing for `/health`,
                              `/mcp`, `/sse` and the default endpoint.
* `src/utils/formatters.ts` — tool error responses.
* tool registration files   — per-tool pagination envelopes
                              (issue search, board/backlog/sprint/epic
                              issues, user search, assignable users).

JavaScript `number` values that are used as non-negative counters
(startAt, maxResults, total, lengths, HTTP statuses) are modelled as
`Nat`; integer parsing results that may be `NaN` are modelled as
`Option Int` with `none` standing for `NaN`; `string | undefined`
fields are `Option String`; thrown exceptions are `Except` errors.
-/

namespace JiraMcp

/-! ## Pagination data model (src/types/entities.ts) -/

/-- The uniform pagination envelope `PaginatedResponse<T>` produced by
list-returning operations.  In the source `total` is an optional field
(`total?: number`); the item type is kept abstract. -/
structure PaginatedResponse (α : Type) where
  items : List α
  count : Nat
  total : Option Nat
  startAt : Nat
  maxResults : Nat
  hasMore : Bool
  deriving Repr, DecidableEq

/-- Vendor page shape `{startAt, maxResults, total, values: T[]}` used by
changelog, projects, versions, group members, boards, sprints, epics and
labels endpoints. -/
structure ValuesPage (α : Type) where
  startAt : Nat
  maxResults : Nat
  total : Nat
  values : List α
  deriving Repr, DecidableEq

/-- Vendor page shape `{startAt, maxResults, total, comments: T[]}`. -/
structure CommentsPage (α : Type) where
  startAt : Nat
  maxResults : Nat
  total : Nat
  comments : List α
  deriving Repr, DecidableEq

/-- Vendor page shape `{startAt, maxResults, total, worklogs: T[]}`. -/
structure WorklogsPage (α : Type) where
  startAt : Nat
  maxResults : Nat
  total : Nat
  worklogs : List α
  deriving Repr, DecidableEq

/-- Vendor page shape `{maxResults, startAt, total, groups: T[]}`. -/
structure GroupsPage (α : Type) where
  startAt : Nat
  maxResults : Nat
  total : Nat
  groups : List α
  deriving Repr, DecidableEq

/-- Vendor page shape `{startAt, maxResults, total, dashboards: T[]}`. -/
structure DashboardsPage (α : Type) where
  startAt : Nat
  maxResults : Nat
  total : Nat
  dashboards : List α
  deriving Repr, DecidableEq

/-- Vendor issue-search result `{startAt, maxResults, total, issues: T[]}`
(`JiraSearchResult`). -/
structure SearchResult (α : Type) where
  startAt : Nat
  maxResults : Nat
  total : Nat
  issues : List α
  deriving Repr, DecidableEq

/-! ## Client pagination reshaping (src/client.ts)

Each list-returning client method reshapes its vendor envelope with the
same literal record; one definition per source method. -/

/-- `JiraClientImpl.getChangelog` reshaping (client.ts lines 763-770). -/
def getChangelogPage {α : Type} (response : ValuesPage α) : PaginatedResponse α :=
  { items := response.values
    count := response.values.length
    total := some response.total
    startAt := response.startAt
    maxResults := response.maxResults
    hasMore := decide (response.startAt + response.values.length < response.total) }

/-- `JiraClientImpl.getComments` reshaping (client.ts lines 824-831). -/
def getCommentsPage {α : Type} (response : CommentsPage α) : PaginatedResponse α :=
  { items := response.comments
    count := response.comments.length
    total := some response.total
    startAt := response.startAt
    maxResults := response.maxResults
    hasMore := decide (response.startAt + response.comments.length < response.total) }

/-- `JiraClientImpl.getWorklogs` reshaping (client.ts lines 883-890). -/
def getWorklogsPage {α : Type} (response : WorklogsPage α) : PaginatedResponse α :=
  { items := response.worklogs
    count := response.worklogs.length
    total := some response.total
    startAt := response.startAt
    maxResults := response.maxResults
    hasMore := decide (response.startAt + response.worklogs.length < response.total) }

/-- `JiraClientImpl.listProjects` reshaping (client.ts lines 1017-1024). -/
def listProjectsPage {α : Type} (response : ValuesPage α) : PaginatedResponse α :=
  { items := response.values
    count := response.values.length
    total := some response.total
    startAt := response.startAt
    maxResults := response.maxResults
    hasMore := decide (response.startAt + response.values.length < response.total) }

/-- `JiraClientImpl.getProjectVersions` reshaping (client.ts lines 1118-1125). -/
def getProjectVersionsPage {α : Type} (response : ValuesPage α) : PaginatedResponse α :=
  { items := response.values
    count := response.values.length
    total := some response.total
    startAt := response.startAt
    maxResults := response.maxResults
    hasMore := decide (response.startAt + response.values.length < response.total) }

/-- `JiraClientImpl.getGroups` reshaping (client.ts lines 1260-1267). -/
def getGroupsPage {α : Type} (response : GroupsPage α) : PaginatedResponse α :=
  { items := response.groups
    count := response.groups.length
    total := some response.total
    startAt := response.startAt
    maxResults := response.maxResults
    hasMore := decide (response.startAt + response.groups.length < response.total) }

/-- `JiraClientImpl.getGroupMembers` reshaping (client.ts lines 1286-1293). -/
def getGroupMembersPage {α : Type} (response : ValuesPage α) : PaginatedResponse α :=
  { items := response.values
    count := response.values.length
    total := some response.total
    startAt := response.startAt
    maxResults := response.maxResults
    hasMore := decide (response.startAt + response.values.length < response.total) }

/-- `JiraClientImpl.getDashboards` reshaping (client.ts lines 1349-1356). -/
def getDashboardsPage {α : Type} (response : DashboardsPage α) : PaginatedResponse α :=
  { items := response.dashboards
    count := response.dashboards.length
    total := some response.total
    startAt := response.startAt
    maxResults := response.maxResults
    hasMore := decide (response.startAt + response.dashboards.length < response.total) }

/-- `JiraClientImpl.getBoards` reshaping (client.ts lines 1382-1389). -/
def getBoardsPage {α : Type} (response : ValuesPage α) : PaginatedResponse α :=
  { items := response.values
    count := response.values.length
    total := some response.total
    startAt := response.startAt
    maxResults := response.maxResults
    hasMore := decide (response.startAt + response.values.length < response.total) }

/-- `JiraClientImpl.getSprints` reshaping (client.ts lines 1435-1442). -/
def getSprintsPage {α : Type} (response : ValuesPage α) : PaginatedResponse α :=
  { items := response.values
    count := response.values.length
    total := some response.total
    startAt := response.startAt
    maxResults := response.maxResults
    hasMore := decide (response.startAt + response.values.length < response.total) }

/-- `JiraClientImpl.getEpics` reshaping (client.ts lines 1531-1538). -/
def getEpicsPage {α : Type} (response : ValuesPage α) : PaginatedResponse α :=
  { items := response.values
    count := response.values.length
    total := some response.total
    startAt := response.startAt
    maxResults := response.maxResults
    hasMore := decide (response.startAt + response.values.length < response.total) }

/-- `JiraClientImpl.getLabels` reshaping (client.ts lines 1604-1611). -/
def getLabelsPage {α : Type} (response : ValuesPage α) : PaginatedResponse α :=
  { items := response.values
    count := response.values.length
    total := some response.total
    startAt := response.startAt
    maxResults := response.maxResults
    hasMore := decide (response.startAt + response.values.length < response.total) }

/-! ## Tool-level pagination envelopes

Several tool handlers build the envelope inline from a vendor
`JiraSearchResult` or from a bare user array. -/

/-- `jira_search_issues` handler envelope (issue tools, lines 42-49). -/
def searchIssuesToolEnvelope {α : Type} (result : SearchResult α) : PaginatedResponse α :=
  { items := result.issues
    count := result.issues.length
    total := some result.total
    startAt := result.startAt
    maxResults := result.maxResults
    hasMore := decide (result.startAt + result.issues.length < result.total) }

/-- `jira_get_board_issues` handler envelope (agile.ts lines 99-106). -/
def boardIssuesToolEnvelope {α : Type} (result : SearchResult α) : PaginatedResponse α :=
  { items := result.issues
    count := result.issues.length
    total := some result.total
    startAt := result.startAt
    maxResults := result.maxResults
    hasMore := decide (result.startAt + result.issues.length < result.total) }

/-- `jira_get_backlog_issues` handler envelope (agile.ts lines 140-147). -/
def backlogIssuesToolEnvelope {α : Type} (result : SearchResult α) : PaginatedResponse α :=
  { items := result.issues
    count := result.issues.length
    total := some result.total
    startAt := result.startAt
    maxResults := result.maxResults
    hasMore := decide (result.startAt + result.issues.length < result.total) }

/-- `jira_get_sprint_issues` handler envelope (agile.ts lines 241-248). -/
def sprintIssuesToolEnvelope {α : Type} (result : SearchResult α) : PaginatedResponse α :=
  { items := result.issues
    count := result.issues.length
    total := some result.total
    startAt := result.startAt
    maxResults := result.maxResults
    hasMore := decide (result.startAt + result.issues.length < result.total) }

/-- `jira_get_epic_issues` handler envelope (agile.ts lines 522-529). -/
def epicIssuesToolEnvelope {α : Type} (result : SearchResult α) : PaginatedResponse α :=
  { items := result.issues
    count := result.issues.length
    total := some result.total
    startAt := result.startAt
    maxResults := result.maxResults
    hasMore := decide (result.startAt + result.issues.length < result.total) }

/-- `jira_search_users` handler envelope (user tools, lines 411-417): the
vendor endpoint `/user/search` returns a bare array, so the handler has no
`total` and sets `hasMore: users.length === maxResults`. -/
def searchUsersToolEnvelope {α : Type} (users : List α) (startAt maxResults : Nat) :
    PaginatedResponse α :=
  { items := users
    count := users.length
    total := none
    startAt := startAt
    maxResults := maxResults
    hasMore := decide (users.length = maxResults) }

/-- `jira_find_assignable_users` handler envelope (user tools, lines
459-465), same bare-array shape as `jira_search_users`. -/
def findAssignableUsersToolEnvelope {α : Type} (users : List α) (startAt maxResults : Nat) :
    PaginatedResponse α :=
  { items := users
    count := users.length
    total := none
    startAt := startAt
    maxResults := maxResults
    hasMore := decide (users.length = maxResults) }

/-- The specification's pagination formula, written from the spec's words
(`hasMore = startAt + items.length < total`), to be compared with the
envelopes the code actually builds. -/
def specHasMore (startAt count total : Nat) : Bool :=
  decide (startAt + count < total)

/-! ## ADF coercion (src/client.ts `toADF`) -/

/-- An ADF node `{type, content?, text?}` (attrs and marks omitted: the
repository never constructs them and `toADF` never inspects them). -/
inductive ADFNode where
  | mk (type : String) (content : Option (List ADFNode)) (text : Option String)

/-- An ADF document.  In the source, `ADFDocument` carries the literal
fields `type: 'doc'` and `version: 1`; the constant `type` tag is
represented by this Lean type itself (the guard `text.type === 'doc'` in
`toADF` holds for every well-typed `ADFDocument` value), and `version` is
kept as a field. -/
structure ADFDocument where
  version : Nat
  content : List ADFNode

/-- The `string | ADFDocument` input union of `toADF`. -/
inductive ADFInput where
  | str (s : String)
  | doc (d : ADFDocument)

/-- `JiraClientImpl.toADF` (client.ts lines 561-575): a pre-formed
document is returned unchanged; a plain string is wrapped in a
one-paragraph, one-text-node document. -/
def toADF : ADFInput → ADFDocument
  | .doc d => d
  | .str s =>
    { version := 1
      content := [ADFNode.mk "paragraph" (some [ADFNode.mk "text" none (some s)]) none] }

/-! ## Tenant credentials (src/types/env.ts) -/

/-- JavaScript truthiness of a `string | undefined` value: `undefined`
and the empty string are falsy. -/
def jsTruthy : Option String → Bool
  | some s => s != ""
  | none => false

/-- Models `headers.get(name) || ''` (env.ts line 40): a missing or
empty header value becomes the empty string. -/
def jsOrEmptyString : Option String → String
  | some s => if s = "" then "" else s
  | none => ""

/-- Models `headers.get(name) || undefined` (env.ts lines 41-43): a
missing or empty header value becomes `undefined`. -/
def jsOrUndefined : Option String → Option String
  | some s => if s = "" then none else some s
  | none => none

/-- `TenantCredentials` (env.ts lines 19-31). -/
structure TenantCredentials where
  domain : String
  email : Option String
  apiToken : Option String
  accessToken : Option String
  deriving Repr, DecidableEq

/-- `parseTenantCredentials` (env.ts lines 36-45).  Request headers are
modelled as a lookup function returning `none` when a header is absent
(`Headers.get` returning `null`). -/
def parseTenantCredentials (headers : String → Option String) : TenantCredentials :=
  { domain := jsOrEmptyString (headers "X-Jira-Domain")
    email := jsOrUndefined (headers "X-Jira-Email")
    apiToken := jsOrUndefined (headers "X-Jira-API-Token")
    accessToken := jsOrUndefined (headers "X-Jira-Access-Token") }

/-- Spec-side auxiliary for stating C10's "exactly as if the
corresponding headers were missing": the same header map with every
empty-valued header removed. -/
def dropEmptyHeaders (headers : String → Option String) : String → Option String :=
  fun name =>
    match headers name with
    | some s => if s = "" then none else some s
    | none => none

/-- `validateCredentials` (env.ts lines 50-64): a thrown `Error` is
modelled as `Except.error` carrying the source's message. -/
def validateCredentials (credentials : TenantCredentials) : Except String Unit :=
  if credentials.domain == "" then
    .error "Missing X-Jira-Domain header. Provide your Jira Cloud domain."
  else
    let hasBasicAuth := jsTruthy credentials.email && jsTruthy credentials.apiToken
    let hasOAuth := jsTruthy credentials.accessToken
    if !hasBasicAuth && !hasOAuth then
      .error "Missing credentials. Provide either X-Jira-Email + X-Jira-API-Token headers, or X-Jira-Access-Token header."
    else
      .ok ()

/-! ## Numeric environment configuration (src/types/env.ts) -/

/-- Digit-prefix value used by the `Number.parseInt` model: the value of
the leading run of decimal digits, or `none` when there is none. -/
def leadingDigitsVal (cs : List Char) : Option Nat :=
  let ds := cs.takeWhile Char.isDigit
  if ds.isEmpty then none
  else some (ds.foldl (fun acc c => acc * 10 + (c.toNat - '0'.toNat)) 0)

/-- Model of JavaScript `Number.parseInt(s, 10)`: skip leading
whitespace, accept an optional sign, read the longest prefix of decimal
digits; `none` models the `NaN` result when no digit is read. -/
def parseIntJS (s : String) : Option Int :=
  match s.data.dropWhile Char.isWhitespace with
  | '-' :: rest => (leadingDigitsVal rest).map (fun n => -(n : Int))
  | '+' :: rest => (leadingDigitsVal rest).map (fun n => (n : Int))
  | cs => (leadingDigitsVal cs).map (fun n => (n : Int))

/-- The three numeric configuration variables of `Env` (env.ts lines
70-78); `none` models an absent (or non-string) runtime value. -/
structure Env where
  CHARACTER_LIMIT : Option String
  DEFAULT_PAGE_SIZE : Option String
  MAX_PAGE_SIZE : Option String
  deriving Repr, DecidableEq

/-- `getEnvNumber` (env.ts lines 94-101) applied to the looked-up
variable value: a string value is parsed in base 10, with the fallback
on `NaN`; a non-string value yields the fallback. -/
def getEnvNumber (value : Option String) (defaultValue : Int) : Int :=
  match value with
  | some s =>
    match parseIntJS s with
    | some parsed => parsed
    | none => defaultValue
  | none => defaultValue

/-- `getCharacterLimit` (env.ts lines 103-105). -/
def getCharacterLimit (env : Env) : Int :=
  getEnvNumber env.CHARACTER_LIMIT 50000

/-- `getDefaultPageSize` (env.ts lines 107-109). -/
def getDefaultPageSize (env : Env) : Int :=
  getEnvNumber env.DEFAULT_PAGE_SIZE 20

/-- `getMaxPageSize` (env.ts lines 111-113). -/
def getMaxPageSize (env : Env) : Int :=
  getEnvNumber env.MAX_PAGE_SIZE 100

/-! ## Auth headers (src/client.ts `getAuthHeaders`) -/

/-- The base64 alphabet used by `btoa`. -/
def base64Chars : List Char :=
  "ABCDEFGHIJKLMNOPQRSTUVWXYZabcdefghijklmnopqrstuvwxyz0123456789+/".data

/-- The base64 digit for a 6-bit value. -/
def base64Char (n : Nat) : Char :=
  base64Chars.getD n '?'

/-- RFC 4648 base64 encoding of a byte list (per 3-byte group, with `=`
padding), as performed by `btoa`. -/
def base64EncodeBytes : List Nat → List Char
  | [] => []
  | [b1] =>
    [base64Char (b1 / 4), base64Char (b1 % 4 * 16), '=', '=']
  | [b1, b2] =>
    [base64Char (b1 / 4), base64Char (b1 % 4 * 16 + b2 / 16),
     base64Char (b2 % 16 * 4), '=']
  | b1 :: b2 :: b3 :: rest =>
    base64Char (b1 / 4) :: base64Char (b1 % 4 * 16 + b2 / 16) ::
    base64Char (b2 % 16 * 4 + b3 / 64) :: base64Char (b3 % 64) ::
    base64EncodeBytes rest

/-- Model of the platform `btoa`: base64 of the string's character codes
(all credential characters are assumed below U+0100, where `btoa` is
defined). -/
def btoa (s : String) : String :=
  ⟨base64EncodeBytes (s.data.map Char.toNat)⟩

/-- The error classes of `utils/errors.ts`, reconstructed from their
construction sites in client.ts: `AuthenticationError(message)`,
`RateLimitError(message, retryAfter)` and `JiraApiError(message,
status)`.  A `retryAfter` of `none` models a `NaN` number. -/
inductive JiraError where
  | authentication (message : String)
  | rateLimit (message : String) (retryAfter : Option Int)
  | api (message : String) (status : Nat)
  deriving Repr, DecidableEq

/-- The `message` property common to the error classes. -/
def JiraError.message : JiraError → String
  | .authentication m => m
  | .rateLimit m _ => m
  | .api m _ => m

/-- The header record returned by `getAuthHeaders`: `Authorization`,
`Content-Type` and `Accept`. -/
structure AuthHeaders where
  authorization : String
  contentType : String
  accept : String
  deriving Repr, DecidableEq

/-- `JiraClientImpl.getAuthHeaders` (client.ts lines 468-491): a truthy
OAuth access token wins; otherwise truthy email and API token give Basic
auth; otherwise an `AuthenticationError` is thrown. -/
def getAuthHeaders (credentials : TenantCredentials) : Except JiraError AuthHeaders :=
  if jsTruthy credentials.accessToken then
    .ok { authorization := "Bearer " ++ credentials.accessToken.getD ""
          contentType := "application/json"
          accept := "application/json" }
  else if jsTruthy credentials.email && jsTruthy credentials.apiToken then
    .ok { authorization :=
            "Basic " ++ btoa (credentials.email.getD "" ++ ":" ++ credentials.apiToken.getD "")
          contentType := "application/json"
          accept := "application/json" }
  else
    .error (.authentication
      "No credentials provided. Include X-Jira-Email + X-Jira-API-Token or X-Jira-Access-Token header.")

/-! ## Worker routing (src/index.ts `fetch`) -/

/-- The parts of an inbound request the worker's `fetch` inspects. -/
structure WorkerRequest where
  pathname : String
  method : String
  headers : String → Option String

/-- The response bodies the worker builds itself. -/
inductive WorkerBody where
  | health (status : String) (server : String)
  | unauthorized (error : String) (message : String) (required_headers : List String)
  | sseUnsupported (text : String)
  | serverInfo
  deriving Repr, DecidableEq

/-- Outcome of the worker's `fetch`: either a response it built itself,
or the request was forwarded to a freshly created stateless MCP tool
server carrying the given tenant credentials. -/
inductive WorkerOutcome where
  | response (status : Nat) (body : WorkerBody)
  | forwardedToMcp (credentials : TenantCredentials)
  deriving Repr, DecidableEq

/-- The worker `fetch` routing (index.ts lines 150-323): `/health`, then
the `/mcp` POST endpoint (parse credentials, validate, 401 on failure,
else create the tool server and forward), then `/sse`, then the default
description response. -/
def workerFetch (request : WorkerRequest) : WorkerOutcome :=
  if request.pathname == "/health" then
    .response 200 (.health "ok" "primrose-mcp-jira")
  else if request.pathname == "/mcp" && request.method == "POST" then
    let credentials := parseTenantCredentials request.headers
    match validateCredentials credentials with
    | .error msg =>
      .response 401 (.unauthorized "Unauthorized" msg
        ["X-Jira-Domain", "X-Jira-Email + X-Jira-API-Token (or X-Jira-Access-Token)"])
    | .ok _ => .forwardedToMcp credentials
  else if request.pathname == "/sse" then
    .response 501 (.sseUnsupported "SSE endpoint requires Durable Objects. Enable in wrangler.jsonc.")
  else
    .response 200 .serverInfo

/-! ## HTTP response classification (src/client.ts `request`) -/

/-- The parsed shape of a vendor error body: `json` carries the three
fields the extractor looks at (`errorMessages` as an optional array,
`errors` as an optional field-to-message object given by its entry list,
`message` as an optional string; `none` models both an absent field and
a JSON `null`), and `invalid` models a body that is not parseable
JSON. -/
inductive ErrorBody where
  | json (errorMessages : Option (List String)) (errors : Option (List (String × String)))
      (message : Option String)
  | invalid
  deriving Repr, DecidableEq

/-- `Response.ok`: status in the 200-299 range. -/
def responseOk (status : Nat) : Bool :=
  decide (200 ≤ status) && decide (status < 300)

/-- The error-message extraction of `request` (client.ts lines 530-545):
start from `Jira API error: <status>`; on a parseable body take the
joined `errorMessages` when that array is non-empty, else the joined
`key: value` entries when `errors` is set (even to an empty object),
else a truthy (non-empty) `message`. -/
def errorMessageFromBody (status : Nat) (body : ErrorBody) : String :=
  match body with
  | .invalid => "Jira API error: " ++ toString status
  | .json errorMessages errors message =>
    match errorMessages with
    | some (m :: ms) => String.intercalate "; " (m :: ms)
    | _ =>
      match errors with
      | some entries => String.intercalate "; " (entries.map fun kv => kv.1 ++ ": " ++ kv.2)
      | none =>
        match message with
        | some m => if m = "" then "Jira API error: " ++ toString status else m
        | none => "Jira API error: " ++ toString status

/-- The status classification of `JiraClientImpl.request` (client.ts
lines 513-554), applied to a received response: status, the
`Retry-After` header value (`none` when absent), the error body (only
consulted on generic failures) and the parsed JSON success body.  `ok
none` models the bodyless `undefined` return for 204. -/
def classifyResponse {β : Type} (status : Nat) (retryAfterHeader : Option String)
    (errorBody : ErrorBody) (jsonBody : β) : Except JiraError (Option β) :=
  if status == 429 then
    .error (.rateLimit "Rate limit exceeded"
      (if jsTruthy retryAfterHeader then parseIntJS (retryAfterHeader.getD "") else some 60))
  else if status == 401 then
    .error (.authentication "Authentication failed. Check your credentials.")
  else if status == 403 then
    .error (.api "Permission denied. Check your access rights." 403)
  else if !responseOk status then
    .error (.api (errorMessageFromBody status errorBody) status)
  else if status == 204 then
    .ok none
  else
    .ok (some jsonBody)

/-- The specification's message-priority rule, written from the spec's
words for comparison with `errorMessageFromBody`: the semicolon-joined
`errorMessages` when non-empty, else the joined entries of the `errors`
map, else the `message` field, else the default (also used for an
unparseable body). -/
def specMessagePriority (status : Nat) (body : ErrorBody) : String :=
  match body with
  | .invalid => "Jira API error: " ++ toString status
  | .json errorMessages errors message =>
    match errorMessages with
    | some (m :: ms) => String.intercalate "; " (m :: ms)
    | _ =>
      match errors with
      | some entries => String.intercalate "; " (entries.map fun kv => kv.1 ++ ": " ++ kv.2)
      | none =>
        match message with
        | some m => m
        | none => "Jira API error: " ++ toString status

/-! ## Tool error boundary (src/utils/formatters.ts and the tool
handlers)

`utils/errors.ts` itself is not among the sources; the error classes are
reconstructed from their construction sites (above), and the two members
only that file defines (`retryable`, `formatErrorForLogging`) are
modelled from the spec. -/

/-- The `unknown` value caught at a tool boundary: one of the client's
error objects, some other `Error`, or a non-`Error` value given by its
`String(...)` rendering. -/
inductive CaughtError where
  | jira (e : JiraError)
  | otherError (message : String)
  | nonError (rendering : String)
  deriving Repr, DecidableEq

/-- Modelled from the spec: `utils/errors.ts` is not among the sources.
The spec's three error categories make rate-limiting the retryable one
("with a retry hint when the vendor supplies one"); authentication and
generic API failures are not retried. -/
def retryable : JiraError → Bool
  | .rateLimit _ _ => true
  | .authentication _ => false
  | .api _ _ => false

/-- Modelled from the spec: `formatErrorForLogging` lives in the missing
`utils/errors.ts`; the spec only requires a diagnostic rendering of the
error, modelled here as its message or rendering. -/
def formatErrorForLogging : CaughtError → String
  | .jira e => e.message
  | .otherError m => m
  | .nonError r => r

/-- The human-readable message built by `formatErrorResponse`
(formatters.ts lines 53-63): `Error: <message>`, with a ` (retryable)`
suffix for retryable API errors. -/
def errorDisplayMessage : CaughtError → String
  | .jira e => "Error: " ++ e.message ++ (if retryable e then " (retryable)" else "")
  | .otherError m => "Error: " ++ m
  | .nonError r => "Error: " ++ r

/-- JSON string escaping as performed by `JSON.stringify` on the common
characters (quote, backslash, newline, carriage return, tab). -/
def jsonEscapeChar (c : Char) : List Char :=
  if c = '"' then ['\\', '"']
  else if c = '\\' then ['\\', '\\']
  else if c = '\n' then ['\\', 'n']
  else if c = '\r' then ['\\', 'r']
  else if c = '\t' then ['\\', 't']
  else [c]

/-- JSON rendering of a string literal. -/
def jsonQuote (s : String) : String :=
  ⟨'"' :: (s.data.flatMap jsonEscapeChar) ++ ['"']⟩

/-- `JSON.stringify({ error, details }, null, 2)` for the two-field
error payload of `formatErrorResponse`. -/
def jsonErrorText (error details : String) : String :=
  "\x7b\n  \"error\": " ++ jsonQuote error ++ ",\n  \"details\": " ++ jsonQuote details ++ "\n\x7d"

/-- One `{type: 'text', text}` content item of a tool response. -/
structure TextContent where
  text : String
  deriving Repr, DecidableEq

/-- The MCP `ToolResponse` shape (formatters.ts lines 23-27); a missing
`isError` field is `false`. -/
structure ToolResponse where
  content : List TextContent
  isError : Bool
  deriving Repr, DecidableEq

/-- `formatErrorResponse` (formatters.ts lines 50-74): every caught
error becomes a failure-flagged response whose single text item holds
the stringified `{error, details}` payload. -/
def formatErrorResponse (error : CaughtError) : ToolResponse :=
  { content := [{ text := jsonErrorText (errorDisplayMessage error) (formatErrorForLogging error) }]
    isError := true }

/-- The `try/catch` body shared by every registered tool handler: run
the client call, feed a successful result to the tool's own success
formatting, and convert a thrown error with `formatErrorResponse`.  The
success formatting is kept abstract (each tool renders differently);
the client-call outcome is the handler's only input. -/
def toolHandlerBody {α : Type} (onSuccess : α → ToolResponse) :
    Except JiraError α → ToolResponse
  | .ok result => onSuccess result
  | .error e => formatErrorResponse (.jira e)

/-- A sequence of independent invocations of one tool: each invocation
consumes exactly one client-call outcome and produces one response. -/
def runToolCalls {α : Type} (onSuccess : α → ToolResponse) :
    List (Except JiraError α) → List ToolResponse
  | [] => []
  | outcome :: rest => toolHandlerBody onSuccess outcome :: runToolCalls onSuccess rest

end JiraMcp

/-! ## Claim C6 -/

/-- C6: `toADF` maps every plain string to a document with exactly one
paragraph containing exactly one text node holding that string, returns
every already-formed document unchanged, and is idempotent:
`toADF (toADF x) = toADF x` (re-injecting the produced document). -/
theorem JiraMcp.toADF_wrap_and_idempotent :
    (∀ s : String,
      JiraMcp.toADF (.str s) =
        { version := 1
          content := [JiraMcp.ADFNode.mk "paragraph"
            (some [JiraMcp.ADFNode.mk "text" none (some s)]) none] }) ∧
    (∀ d : JiraMcp.ADFDocument, JiraMcp.toADF (.doc d) = d) ∧
    (∀ x : JiraMcp.ADFInput, JiraMcp.toADF (.doc (JiraMcp.toADF x)) = JiraMcp.toADF x) := by
  refine ⟨fun s => rfl, fun d => rfl, fun x => ?_⟩
  cases x <;> rfl

/-! ## Claim C4 -/

/-- C4: for a vendor issue-search response `{startAt: 0, maxResults: 50,
total: 120, issues: [50 items]}` (the request and the echoed vendor field
both have `maxResults = 50`), the `jira_search_issues` tool envelope is
exactly `{items, count: 50, total: 120, startAt: 0, maxResults: 50,
hasMore: true}`. -/
theorem JiraMcp.searchIssues_example_envelope :
    JiraMcp.searchIssuesToolEnvelope
      { startAt := 0, maxResults := 50, total := 120, issues := List.range 50 } =
      { items := List.range 50, count := 50, total := some 120,
        startAt := 0, maxResults := 50, hasMore := true } := by
  rfl

/-! ## Claim C1 -/

/-- C1 counterexample: the claim's `hasMore ↔ startAt + count < total`
law fails for `jira_search_users`.  With one returned user, `startAt = 0`
and `maxResults = 1`, the tool sets `hasMore = true` (full page), and its
envelope carries no `total` at all; in the vendor state where that one
user is the only match (`total = 1`), the claimed formula gives
`0 + 1 < 1 = false`. -/
theorem JiraMcp.searchUsers_hasMore_counterexample :
    (JiraMcp.searchUsersToolEnvelope [()] 0 1).hasMore = true ∧
    (JiraMcp.searchUsersToolEnvelope [()] 0 1).total = none ∧
    JiraMcp.specHasMore 0 1 1 = false := by
  exact ⟨rfl, rfl, rfl⟩

/-- C1 amended: every list-returning operation that carries a vendor
`total` — the paginated client methods (changelog, comments, worklogs,
projects, versions, groups, group members, dashboards, boards, sprints,
epics, labels) and the issue-list tools (search, board, backlog, sprint,
epic issues) — sets `hasMore` true iff `startAt + items.length < total`;
the two user tools (`jira_search_users`, `jira_find_assignable_users`)
instead receive a bare array, omit `total`, and set `hasMore` iff the
returned page is full (`items.length = maxResults`). -/
theorem JiraMcp.hasMore_envelope_characterization :
    (∀ (α : Type) (r : JiraMcp.ValuesPage α),
      ((JiraMcp.getChangelogPage r).hasMore = true ↔ r.startAt + r.values.length < r.total) ∧
      ((JiraMcp.listProjectsPage r).hasMore = true ↔ r.startAt + r.values.length < r.total) ∧
      ((JiraMcp.getProjectVersionsPage r).hasMore = true ↔ r.startAt + r.values.length < r.total) ∧
      ((JiraMcp.getGroupMembersPage r).hasMore = true ↔ r.startAt + r.values.length < r.total) ∧
      ((JiraMcp.getBoardsPage r).hasMore = true ↔ r.startAt + r.values.length < r.total) ∧
      ((JiraMcp.getSprintsPage r).hasMore = true ↔ r.startAt + r.values.length < r.total) ∧
      ((JiraMcp.getEpicsPage r).hasMore = true ↔ r.startAt + r.values.length < r.total) ∧
      ((JiraMcp.getLabelsPage r).hasMore = true ↔ r.startAt + r.values.length < r.total)) ∧
    (∀ (α : Type) (r : JiraMcp.CommentsPage α),
      (JiraMcp.getCommentsPage r).hasMore = true ↔ r.startAt + r.comments.length < r.total) ∧
    (∀ (α : Type) (r : JiraMcp.WorklogsPage α),
      (JiraMcp.getWorklogsPage r).hasMore = true ↔ r.startAt + r.worklogs.length < r.total) ∧
    (∀ (α : Type) (r : JiraMcp.GroupsPage α),
      (JiraMcp.getGroupsPage r).hasMore = true ↔ r.startAt + r.groups.length < r.total) ∧
    (∀ (α : Type) (r : JiraMcp.DashboardsPage α),
      (JiraMcp.getDashboardsPage r).hasMore = true ↔ r.startAt + r.dashboards.length < r.total) ∧
    (∀ (α : Type) (r : JiraMcp.SearchResult α),
      ((JiraMcp.searchIssuesToolEnvelope r).hasMore = true ↔ r.startAt + r.issues.length < r.total) ∧
      ((JiraMcp.boardIssuesToolEnvelope r).hasMore = true ↔ r.startAt + r.issues.length < r.total) ∧
      ((JiraMcp.backlogIssuesToolEnvelope r).hasMore = true ↔ r.startAt + r.issues.length < r.total) ∧
      ((JiraMcp.sprintIssuesToolEnvelope r).hasMore = true ↔ r.startAt + r.issues.length < r.total) ∧
      ((JiraMcp.epicIssuesToolEnvelope r).hasMore = true ↔ r.startAt + r.issues.length < r.total)) ∧
    (∀ (α : Type) (users : List α) (startAt maxResults : Nat),
      ((JiraMcp.searchUsersToolEnvelope users startAt maxResults).hasMore = true ↔
        users.length = maxResults) ∧
      (JiraMcp.searchUsersToolEnvelope users startAt maxResults).total = none ∧
      ((JiraMcp.findAssignableUsersToolEnvelope users startAt maxResults).hasMore = true ↔
        users.length = maxResults) ∧
      (JiraMcp.findAssignableUsersToolEnvelope users startAt maxResults).total = none) := by
  refine ⟨fun α r => ?_, fun α r => ?_, fun α r => ?_, fun α r => ?_, fun α r => ?_,
    fun α r => ?_, fun α users startAt maxResults => ?_⟩ <;>
    simp [JiraMcp.getChangelogPage, JiraMcp.listProjectsPage, JiraMcp.getProjectVersionsPage,
      JiraMcp.getGroupMembersPage, JiraMcp.getBoardsPage, JiraMcp.getSprintsPage,
      JiraMcp.getEpicsPage, JiraMcp.getLabelsPage, JiraMcp.getCommentsPage,
      JiraMcp.getWorklogsPage, JiraMcp.getGroupsPage, JiraMcp.getDashboardsPage,
      JiraMcp.searchIssuesToolEnvelope, JiraMcp.boardIssuesToolEnvelope,
      JiraMcp.backlogIssuesToolEnvelope, JiraMcp.sprintIssuesToolEnvelope,
      JiraMcp.epicIssuesToolEnvelope, JiraMcp.searchUsersToolEnvelope,
      JiraMcp.findAssignableUsersToolEnvelope]

/-! ## Claim C2 -/

/-- C2: `getAuthHeaders` resolves credentials by: a (truthy, i.e.
present and non-empty) OAuth access token always wins and yields a
`Bearer` header regardless of the Basic-auth fields; with no truthy
access token but truthy email and API token, the header is `Basic `
followed by `btoa(email + ':' + apiToken)`; with neither, an
`AuthenticationError` is thrown. -/
theorem JiraMcp.getAuthHeaders_classification :
    (∀ (c : JiraMcp.TenantCredentials) (t : String),
      c.accessToken = some t → t ≠ "" →
      JiraMcp.getAuthHeaders c =
        .ok { authorization := "Bearer " ++ t
              contentType := "application/json"
              accept := "application/json" }) ∧
    (∀ (c : JiraMcp.TenantCredentials) (e a : String),
      JiraMcp.jsTruthy c.accessToken = false →
      c.email = some e → e ≠ "" →
      c.apiToken = some a → a ≠ "" →
      JiraMcp.getAuthHeaders c =
        .ok { authorization := "Basic " ++ JiraMcp.btoa (e ++ ":" ++ a)
              contentType := "application/json"
              accept := "application/json" }) ∧
    (∀ c : JiraMcp.TenantCredentials,
      JiraMcp.jsTruthy c.accessToken = false →
      (JiraMcp.jsTruthy c.email = false ∨ JiraMcp.jsTruthy c.apiToken = false) →
      JiraMcp.getAuthHeaders c =
        .error (.authentication
          "No credentials provided. Include X-Jira-Email + X-Jira-API-Token or X-Jira-Access-Token header.")) := by
  refine ⟨fun c t hTok hNe => ?_, fun c e a hNoTok hEmail hEmailNe hApi hApiNe => ?_,
    fun c hNoTok hMissing => ?_⟩
  · simp [JiraMcp.getAuthHeaders, JiraMcp.jsTruthy, hTok, hNe]
  · simp only [JiraMcp.getAuthHeaders, hNoTok, Bool.false_eq_true, if_false]
    simp [JiraMcp.jsTruthy, hEmail, hApi, hEmailNe, hApiNe]
  · rcases hMissing with hM | hM <;>
      simp [JiraMcp.getAuthHeaders, hNoTok, hM]

/-- Witness for C2: all three branches of `getAuthHeaders` realised on
concrete credential records. -/
theorem JiraMcp.getAuthHeaders_classification_witness :
    JiraMcp.getAuthHeaders
      { domain := "acme", email := some "user@example.com",
        apiToken := some "token123", accessToken := some "oauth-abc" } =
      .ok { authorization := "Bearer oauth-abc"
            contentType := "application/json"
            accept := "application/json" } ∧
    JiraMcp.getAuthHeaders
      { domain := "acme", email := some "user@example.com",
        apiToken := some "token123", accessToken := none } =
      .ok { authorization := "Basic " ++ JiraMcp.btoa "user@example.com:token123"
            contentType := "application/json"
            accept := "application/json" } ∧
    JiraMcp.getAuthHeaders
      { domain := "acme", email := some "user@example.com",
        apiToken := none, accessToken := none } =
      .error (.authentication
        "No credentials provided. Include X-Jira-Email + X-Jira-API-Token or X-Jira-Access-Token header.") := by
  refine ⟨?_, ?_, ?_⟩
  · exact JiraMcp.getAuthHeaders_classification.1 _ "oauth-abc" rfl (by decide)
  · have h := JiraMcp.getAuthHeaders_classification.2.1
      { domain := "acme", email := some "user@example.com",
        apiToken := some "token123", accessToken := none }
      "user@example.com" "token123" rfl rfl (by decide) rfl (by decide)
    simpa using h
  · exact JiraMcp.getAuthHeaders_classification.2.2 _ rfl (Or.inr rfl)

/-! ## Claim C9 -/

/-- C9: each configuration accessor returns the base-10 integer parse of
its environment variable when that variable is a string parsing to a
number, and otherwise (absent / not a string, or parsing to NaN) its
hardcoded fallback: 50000 for the character limit, 20 for the default
page size, 100 for the maximum page size. -/
theorem JiraMcp.env_number_fallbacks :
    (∀ (env : JiraMcp.Env) (s : String) (n : Int),
      env.CHARACTER_LIMIT = some s → JiraMcp.parseIntJS s = some n →
      JiraMcp.getCharacterLimit env = n) ∧
    (∀ (env : JiraMcp.Env) (s : String),
      env.CHARACTER_LIMIT = some s → JiraMcp.parseIntJS s = none →
      JiraMcp.getCharacterLimit env = 50000) ∧
    (∀ env : JiraMcp.Env, env.CHARACTER_LIMIT = none →
      JiraMcp.getCharacterLimit env = 50000) ∧
    (∀ (env : JiraMcp.Env) (s : String) (n : Int),
      env.DEFAULT_PAGE_SIZE = some s → JiraMcp.parseIntJS s = some n →
      JiraMcp.getDefaultPageSize env = n) ∧
    (∀ (env : JiraMcp.Env) (s : String),
      env.DEFAULT_PAGE_SIZE = some s → JiraMcp.parseIntJS s = none →
      JiraMcp.getDefaultPageSize env = 20) ∧
    (∀ env : JiraMcp.Env, env.DEFAULT_PAGE_SIZE = none →
      JiraMcp.getDefaultPageSize env = 20) ∧
    (∀ (env : JiraMcp.Env) (s : String) (n : Int),
      env.MAX_PAGE_SIZE = some s → JiraMcp.parseIntJS s = some n →
      JiraMcp.getMaxPageSize env = n) ∧
    (∀ (env : JiraMcp.Env) (s : String),
      env.MAX_PAGE_SIZE = some s → JiraMcp.parseIntJS s = none →
      JiraMcp.getMaxPageSize env = 100) ∧
    (∀ env : JiraMcp.Env, env.MAX_PAGE_SIZE = none →
      JiraMcp.getMaxPageSize env = 100) := by
  refine ⟨fun env s n h1 h2 => ?_, fun env s h1 h2 => ?_, fun env h1 => ?_,
    fun env s n h1 h2 => ?_, fun env s h1 h2 => ?_, fun env h1 => ?_,
    fun env s n h1 h2 => ?_, fun env s h1 h2 => ?_, fun env h1 => ?_⟩ <;>
    simp [JiraMcp.getCharacterLimit, JiraMcp.getDefaultPageSize, JiraMcp.getMaxPageSize,
      JiraMcp.getEnvNumber, *]

/-- Witness for C9: concrete environments exercising the parse and the
fallback of each accessor. -/
theorem JiraMcp.env_number_fallbacks_witness :
    JiraMcp.getCharacterLimit
      { CHARACTER_LIMIT := some "12345", DEFAULT_PAGE_SIZE := none, MAX_PAGE_SIZE := none } =
      12345 ∧
    JiraMcp.getCharacterLimit
      { CHARACTER_LIMIT := some "oops", DEFAULT_PAGE_SIZE := none, MAX_PAGE_SIZE := none } =
      50000 ∧
    JiraMcp.getCharacterLimit
      { CHARACTER_LIMIT := none, DEFAULT_PAGE_SIZE := none, MAX_PAGE_SIZE := none } = 50000 ∧
    JiraMcp.getDefaultPageSize
      { CHARACTER_LIMIT := none, DEFAULT_PAGE_SIZE := some "25", MAX_PAGE_SIZE := none } = 25 ∧
    JiraMcp.getDefaultPageSize
      { CHARACTER_LIMIT := none, DEFAULT_PAGE_SIZE := some "", MAX_PAGE_SIZE := none } = 20 ∧
    JiraMcp.getDefaultPageSize
      { CHARACTER_LIMIT := none, DEFAULT_PAGE_SIZE := none, MAX_PAGE_SIZE := none } = 20 ∧
    JiraMcp.getMaxPageSize
      { CHARACTER_LIMIT := none, DEFAULT_PAGE_SIZE := none, MAX_PAGE_SIZE := some "-7" } = -7 ∧
    JiraMcp.getMaxPageSize
      { CHARACTER_LIMIT := none, DEFAULT_PAGE_SIZE := none, MAX_PAGE_SIZE := some "x9" } = 100 ∧
    JiraMcp.getMaxPageSize
      { CHARACTER_LIMIT := none, DEFAULT_PAGE_SIZE := none, MAX_PAGE_SIZE := none } = 100 := by
  refine ⟨?_, ?_, ?_, ?_, ?_, ?_, ?_, ?_, ?_⟩
  · exact JiraMcp.env_number_fallbacks.1 _ "12345" 12345 rfl (by decide)
  · exact JiraMcp.env_number_fallbacks.2.1 _ "oops" rfl (by decide)
  · exact JiraMcp.env_number_fallbacks.2.2.1 _ rfl
  · exact JiraMcp.env_number_fallbacks.2.2.2.1 _ "25" 25 rfl (by decide)
  · exact JiraMcp.env_number_fallbacks.2.2.2.2.1 _ "" rfl (by decide)
  · exact JiraMcp.env_number_fallbacks.2.2.2.2.2.1 _ rfl
  · exact JiraMcp.env_number_fallbacks.2.2.2.2.2.2.1 _ "-7" (-7) rfl (by decide)
  · exact JiraMcp.env_number_fallbacks.2.2.2.2.2.2.2.1 _ "x9" rfl (by decide)
  · exact JiraMcp.env_number_fallbacks.2.2.2.2.2.2.2.2 _ rfl

/-! ## Claim C10 -/

/-- Helper: `|| undefined` coercion is idempotent. -/
theorem JiraMcp.jsOrUndefined_idem (o : Option String) :
    JiraMcp.jsOrUndefined (JiraMcp.jsOrUndefined o) = JiraMcp.jsOrUndefined o := by
  cases o with
  | none => rfl
  | some s =>
    by_cases h : s = "" <;> simp [JiraMcp.jsOrUndefined, h]

/-- Helper: `|| ''` after `|| undefined` coercion agrees with `|| ''`. -/
theorem JiraMcp.jsOrEmptyString_jsOrUndefined (o : Option String) :
    JiraMcp.jsOrEmptyString (JiraMcp.jsOrUndefined o) = JiraMcp.jsOrEmptyString o := by
  cases o with
  | none => rfl
  | some s =>
    by_cases h : s = "" <;> simp [JiraMcp.jsOrUndefined, JiraMcp.jsOrEmptyString, h]

/-- C10: `parseTenantCredentials` maps an empty-string `X-Jira-Email`,
`X-Jira-API-Token` or `X-Jira-Access-Token` header to the absent value
and a missing `X-Jira-Domain` to the empty string; parsing is unchanged
by deleting all empty-valued headers (so empty headers behave exactly as
missing ones under `validateCredentials`); and the three concrete
scenarios — all headers present but empty, only an OAuth token without a
domain, only an email without an API token — are all rejected. -/
theorem JiraMcp.parse_credentials_empty_as_missing :
    (∀ h : String → Option String, h "X-Jira-Email" = some "" →
      (JiraMcp.parseTenantCredentials h).email = none) ∧
    (∀ h : String → Option String, h "X-Jira-API-Token" = some "" →
      (JiraMcp.parseTenantCredentials h).apiToken = none) ∧
    (∀ h : String → Option String, h "X-Jira-Access-Token" = some "" →
      (JiraMcp.parseTenantCredentials h).accessToken = none) ∧
    (∀ h : String → Option String, h "X-Jira-Domain" = none →
      (JiraMcp.parseTenantCredentials h).domain = "") ∧
    (∀ h : String → Option String,
      JiraMcp.parseTenantCredentials h =
        JiraMcp.parseTenantCredentials (JiraMcp.dropEmptyHeaders h)) ∧
    (JiraMcp.validateCredentials (JiraMcp.parseTenantCredentials (fun _ => some "")) =
      .error "Missing X-Jira-Domain header. Provide your Jira Cloud domain.") ∧
    (JiraMcp.validateCredentials (JiraMcp.parseTenantCredentials
        (fun name => if name = "X-Jira-Access-Token" then some "oauth-abc" else none)) =
      .error "Missing X-Jira-Domain header. Provide your Jira Cloud domain.") ∧
    (JiraMcp.validateCredentials (JiraMcp.parseTenantCredentials
        (fun name =>
          if name = "X-Jira-Domain" then some "acme"
          else if name = "X-Jira-Email" then some "user@example.com"
          else none)) =
      .error "Missing credentials. Provide either X-Jira-Email + X-Jira-API-Token headers, or X-Jira-Access-Token header.") := by
  refine ⟨fun h hv => ?_, fun h hv => ?_, fun h hv => ?_, fun h hv => ?_,
    fun h => ?_, ?_, ?_, ?_⟩
  · simp [JiraMcp.parseTenantCredentials, JiraMcp.jsOrUndefined, hv]
  · simp [JiraMcp.parseTenantCredentials, JiraMcp.jsOrUndefined, hv]
  · simp [JiraMcp.parseTenantCredentials, JiraMcp.jsOrUndefined, hv]
  · simp [JiraMcp.parseTenantCredentials, JiraMcp.jsOrEmptyString, hv]
  · have hd : ∀ name, JiraMcp.dropEmptyHeaders h name = JiraMcp.jsOrUndefined (h name) := by
      intro name
      cases hn : h name with
      | none => simp [JiraMcp.dropEmptyHeaders, JiraMcp.jsOrUndefined, hn]
      | some s => by_cases hs : s = "" <;> simp [JiraMcp.dropEmptyHeaders, JiraMcp.jsOrUndefined, hn, hs]
    simp [JiraMcp.parseTenantCredentials, hd, JiraMcp.jsOrUndefined_idem,
      JiraMcp.jsOrEmptyString_jsOrUndefined]
  · rfl
  · rfl
  · rfl

/-- Witness for C10: the hypothesis-bearing parts realised on the
all-empty header map and on a map omitting `X-Jira-Domain`. -/
theorem JiraMcp.parse_credentials_empty_as_missing_witness :
    (JiraMcp.parseTenantCredentials (fun _ => some "")).email = none ∧
    (JiraMcp.parseTenantCredentials (fun _ => some "")).apiToken = none ∧
    (JiraMcp.parseTenantCredentials (fun _ => some "")).accessToken = none ∧
    (JiraMcp.parseTenantCredentials (fun _ => none)).domain = "" := by
  exact ⟨JiraMcp.parse_credentials_empty_as_missing.1 _ rfl,
    JiraMcp.parse_credentials_empty_as_missing.2.1 _ rfl,
    JiraMcp.parse_credentials_empty_as_missing.2.2.1 _ rfl,
    JiraMcp.parse_credentials_empty_as_missing.2.2.2.1 _ rfl⟩

/-! ## Claim C7 -/

/-- C7: a POST to `/mcp` with all four tenant headers absent yields a
401 response whose JSON body names the required headers in its
`required_headers` field, and the request is not forwarded to a tool
server. -/
theorem JiraMcp.mcp_missing_headers_unauthorized :
    ∀ h : String → Option String,
      h "X-Jira-Domain" = none → h "X-Jira-Email" = none →
      h "X-Jira-API-Token" = none → h "X-Jira-Access-Token" = none →
      (JiraMcp.workerFetch { pathname := "/mcp", method := "POST", headers := h } =
        .response 401 (.unauthorized "Unauthorized"
          "Missing X-Jira-Domain header. Provide your Jira Cloud domain."
          ["X-Jira-Domain", "X-Jira-Email + X-Jira-API-Token (or X-Jira-Access-Token)"])) ∧
      (∀ c : JiraMcp.TenantCredentials,
        JiraMcp.workerFetch { pathname := "/mcp", method := "POST", headers := h } ≠
          .forwardedToMcp c) := by
  intro h hDom hEmail hApi hTok
  have hParse : JiraMcp.parseTenantCredentials h =
      { domain := "", email := none, apiToken := none, accessToken := none } := by
    simp [JiraMcp.parseTenantCredentials, JiraMcp.jsOrEmptyString, JiraMcp.jsOrUndefined,
      hDom, hEmail, hApi, hTok]
  have hEq : JiraMcp.workerFetch { pathname := "/mcp", method := "POST", headers := h } =
      .response 401 (.unauthorized "Unauthorized"
        "Missing X-Jira-Domain header. Provide your Jira Cloud domain."
        ["X-Jira-Domain", "X-Jira-Email + X-Jira-API-Token (or X-Jira-Access-Token)"]) := by
    simp [JiraMcp.workerFetch, hParse, JiraMcp.validateCredentials]
  refine ⟨hEq, fun c hc => ?_⟩
  rw [hEq] at hc
  exact JiraMcp.WorkerOutcome.noConfusion hc

/-- Witness for C7: the headerless request. -/
theorem JiraMcp.mcp_missing_headers_unauthorized_witness :
    JiraMcp.workerFetch { pathname := "/mcp", method := "POST", headers := fun _ => none } =
      .response 401 (.unauthorized "Unauthorized"
        "Missing X-Jira-Domain header. Provide your Jira Cloud domain."
        ["X-Jira-Domain", "X-Jira-Email + X-Jira-API-Token (or X-Jira-Access-Token)"]) :=
  (JiraMcp.mcp_missing_headers_unauthorized (fun _ => none) rfl rfl rfl rfl).1

/-! ## Claim C3 -/

/-- C3 counterexample: a 429 response whose `Retry-After` header is
present but empty.  `Headers.get` returns the empty string (the header
is present), whose integer parse is `NaN` (`none`); the code's truthiness
test instead takes the default branch and the raised rate-limit error
carries 60, not the header's parse. -/
theorem JiraMcp.retryAfter_empty_header_counterexample :
    JiraMcp.classifyResponse (β := Unit) 429 (some "") .invalid () =
      .error (.rateLimit "Rate limit exceeded" (some 60)) ∧
    JiraMcp.parseIntJS "" = none ∧
    ((some (60 : Int) : Option Int) == JiraMcp.parseIntJS "") = false := by
  refine ⟨rfl, rfl, by decide⟩

/-- C3 amended: status 429 raises a rate-limit error carrying the
integer parse of the `Retry-After` header when that header is present
with a non-empty value, and the fixed default 60 otherwise (header
absent or empty); 401 raises an authentication failure; 403 raises a
`JiraApiError` with status 403; 204 returns an empty success with no
body; every other 2xx returns the parsed JSON body. -/
theorem JiraMcp.request_status_classification_amended :
    (∀ (β : Type) (b : β) (body : JiraMcp.ErrorBody) (s : String), s ≠ "" →
      JiraMcp.classifyResponse 429 (some s) body b =
        .error (.rateLimit "Rate limit exceeded" (JiraMcp.parseIntJS s))) ∧
    (∀ (β : Type) (b : β) (body : JiraMcp.ErrorBody),
      JiraMcp.classifyResponse 429 none body b =
        .error (.rateLimit "Rate limit exceeded" (some 60))) ∧
    (∀ (β : Type) (b : β) (body : JiraMcp.ErrorBody),
      JiraMcp.classifyResponse 429 (some "") body b =
        .error (.rateLimit "Rate limit exceeded" (some 60))) ∧
    (∀ (β : Type) (b : β) (body : JiraMcp.ErrorBody) (ra : Option String),
      JiraMcp.classifyResponse 401 ra body b =
        .error (.authentication "Authentication failed. Check your credentials.")) ∧
    (∀ (β : Type) (b : β) (body : JiraMcp.ErrorBody) (ra : Option String),
      JiraMcp.classifyResponse 403 ra body b =
        .error (.api "Permission denied. Check your access rights." 403)) ∧
    (∀ (β : Type) (b : β) (body : JiraMcp.ErrorBody) (ra : Option String),
      JiraMcp.classifyResponse 204 ra body b = .ok none) ∧
    (∀ (β : Type) (b : β) (body : JiraMcp.ErrorBody) (ra : Option String) (status : Nat),
      200 ≤ status → status < 300 → status ≠ 204 →
      JiraMcp.classifyResponse status ra body b = .ok (some b)) := by
  refine ⟨fun β b body s hs => ?_, fun β b body => rfl, fun β b body => rfl,
    fun β b body ra => rfl, fun β b body ra => rfl, fun β b body ra => rfl,
    fun β b body ra status hle hlt h204 => ?_⟩
  · simp [JiraMcp.classifyResponse, JiraMcp.jsTruthy, hs]
  · have h429 : (status == 429) = false := by simp; omega
    have h401 : (status == 401) = false := by simp; omega
    have h403 : (status == 403) = false := by simp; omega
    have h204b : (status == 204) = false := by simp [h204]
    have hok : JiraMcp.responseOk status = true := by
      simp [JiraMcp.responseOk, hle, hlt]
    simp [JiraMcp.classifyResponse, h429, h401, h403, h204b, hok]

/-- Witness for C3: a non-empty numeric header on a 429 and a plain 200
success. -/
theorem JiraMcp.request_status_classification_amended_witness :
    JiraMcp.classifyResponse (β := Unit) 429 (some "120") .invalid () =
      .error (.rateLimit "Rate limit exceeded" (JiraMcp.parseIntJS "120")) ∧
    JiraMcp.classifyResponse (β := Nat) 200 none .invalid 7 = .ok (some 7) := by
  refine ⟨JiraMcp.request_status_classification_amended.1 Unit () .invalid "120" (by decide),
    JiraMcp.request_status_classification_amended.2.2.2.2.2.2 Nat 7 .invalid none 200
      (by decide) (by decide) (by decide)⟩

/-! ## Claim C5 -/

/-- C5 counterexample: a 500 response whose parsed error body is
`{"message": ""}`.  The claim's priority order picks the `message`
field (the empty string); the code's truthiness test skips an empty
`message` and raises the default `Jira API error: 500` instead. -/
theorem JiraMcp.errorMessage_empty_message_counterexample :
    JiraMcp.classifyResponse (β := Unit) 500 none (.json none none (some "")) () =
      .error (.api "Jira API error: 500" 500) ∧
    JiraMcp.specMessagePriority 500 (.json none none (some "")) = "" ∧
    (JiraMcp.specMessagePriority 500 (.json none none (some "")) ==
      JiraMcp.errorMessageFromBody 500 (.json none none (some ""))) = false := by
  refine ⟨rfl, rfl, by decide⟩

/-- C5 amended: every non-2xx status other than 429, 401 and 403 raises
a generic API error carrying that status and a message chosen by
priority over the parsed vendor body: the semicolon-joined
`errorMessages` when non-empty, else the `key: value` entries of a
present `errors` map, else the `message` field when it is non-empty,
else the default `Jira API error: <status>` (also used when the body is
not parseable JSON). -/
theorem JiraMcp.request_error_message_priority_amended :
    (∀ (β : Type) (b : β) (body : JiraMcp.ErrorBody) (ra : Option String) (status : Nat),
      status ≠ 429 → status ≠ 401 → status ≠ 403 → ¬(200 ≤ status ∧ status < 300) →
      JiraMcp.classifyResponse status ra body b =
        .error (.api (JiraMcp.errorMessageFromBody status body) status)) ∧
    (∀ (status : Nat) (m : String) (ms : List String) (err : Option (List (String × String)))
        (msg : Option String),
      JiraMcp.errorMessageFromBody status (.json (some (m :: ms)) err msg) =
        String.intercalate "; " (m :: ms)) ∧
    (∀ (status : Nat) (entries : List (String × String)) (msg : Option String),
      JiraMcp.errorMessageFromBody status (.json none (some entries) msg) =
        String.intercalate "; " (entries.map fun kv => kv.1 ++ ": " ++ kv.2)) ∧
    (∀ (status : Nat) (entries : List (String × String)) (msg : Option String),
      JiraMcp.errorMessageFromBody status (.json (some []) (some entries) msg) =
        String.intercalate "; " (entries.map fun kv => kv.1 ++ ": " ++ kv.2)) ∧
    (∀ (status : Nat) (m : String), m ≠ "" →
      JiraMcp.errorMessageFromBody status (.json none none (some m)) = m) ∧
    (∀ (status : Nat) (m : String), m ≠ "" →
      JiraMcp.errorMessageFromBody status (.json (some []) none (some m)) = m) ∧
    (∀ status : Nat,
      JiraMcp.errorMessageFromBody status (.json none none (some "")) =
        "Jira API error: " ++ toString status) ∧
    (∀ status : Nat,
      JiraMcp.errorMessageFromBody status (.json none none none) =
        "Jira API error: " ++ toString status) ∧
    (∀ status : Nat,
      JiraMcp.errorMessageFromBody status .invalid =
        "Jira API error: " ++ toString status) := by
  refine ⟨fun β b body ra status h429 h401 h403 hok => ?_,
    fun status m ms err msg => rfl, fun status entries msg => rfl,
    fun status entries msg => rfl, fun status m hm => ?_, fun status m hm => ?_,
    fun status => rfl, fun status => rfl, fun status => rfl⟩
  · have b429 : (status == 429) = false := by simp [h429]
    have b401 : (status == 401) = false := by simp [h401]
    have b403 : (status == 403) = false := by simp [h403]
    have bok : JiraMcp.responseOk status = false := by
      simp [JiraMcp.responseOk]
      omega
    simp [JiraMcp.classifyResponse, b429, b401, b403, bok]
  · simp [JiraMcp.errorMessageFromBody, hm]
  · simp [JiraMcp.errorMessageFromBody, hm]

/-- Witness for C5: a 500 with an unparseable body, and a non-empty
`message` body. -/
theorem JiraMcp.request_error_message_priority_amended_witness :
    JiraMcp.classifyResponse (β := Unit) 500 none .invalid () =
      .error (.api (JiraMcp.errorMessageFromBody 500 .invalid) 500) ∧
    JiraMcp.errorMessageFromBody 404 (.json none none (some "It went wrong")) =
      "It went wrong" := by
  refine ⟨JiraMcp.request_error_message_priority_amended.1 Unit () .invalid none 500
      (by decide) (by decide) (by decide) (by decide),
    JiraMcp.request_error_message_priority_amended.2.2.2.2.1 404 "It went wrong" (by decide)⟩

/-! ## Claim C8 -/

/-- C8: every registered tool handler (abstracted over its
success-formatting function) converts a thrown client error into
`formatErrorResponse`'s failure-flagged response rather than
propagating; that response has `isError = true` and a single text item
whose payload carries the human-readable `Error: ...` message; one
invocation consumes exactly one client-call outcome (no retry); and in
a sequence of invocations each response is determined solely by its own
call's outcome, so one failing call does not affect any other. -/
theorem JiraMcp.tool_error_boundary_uniform :
    (∀ (α : Type) (onSuccess : α → JiraMcp.ToolResponse) (e : JiraMcp.JiraError),
      JiraMcp.toolHandlerBody onSuccess (.error e) = JiraMcp.formatErrorResponse (.jira e)) ∧
    (∀ c : JiraMcp.CaughtError, (JiraMcp.formatErrorResponse c).isError = true) ∧
    (∀ c : JiraMcp.CaughtError, ∃ rest : String,
      (JiraMcp.formatErrorResponse c).content =
        [{ text := JiraMcp.jsonErrorText ("Error: " ++ rest) (JiraMcp.formatErrorForLogging c) }]) ∧
    (∀ (α : Type) (onSuccess : α → JiraMcp.ToolResponse)
        (o₁ o₂ : Except JiraMcp.JiraError α) (rest : List (Except JiraMcp.JiraError α)),
      JiraMcp.runToolCalls onSuccess (o₁ :: o₂ :: rest) =
        JiraMcp.toolHandlerBody onSuccess o₁ :: JiraMcp.toolHandlerBody onSuccess o₂ ::
          JiraMcp.runToolCalls onSuccess rest) ∧
    (∀ (α : Type) (onSuccess : α → JiraMcp.ToolResponse)
        (outcomes : List (Except JiraMcp.JiraError α)),
      (JiraMcp.runToolCalls onSuccess outcomes).length = outcomes.length) := by
  refine ⟨fun α onSuccess e => rfl, fun c => rfl, fun c => ?_,
    fun α onSuccess o₁ o₂ rest => rfl, fun α onSuccess outcomes => ?_⟩
  · cases c with
    | jira e =>
      exact ⟨e.message ++ (if JiraMcp.retryable e then " (retryable)" else ""),
        by simp [JiraMcp.formatErrorResponse, JiraMcp.errorDisplayMessage, String.append_assoc]⟩
    | otherError m =>
      exact ⟨m, rfl⟩
    | nonError r =>
      exact ⟨r, rfl⟩
  · induction outcomes with
    | nil => rfl
    | cons o rest ih => simp [JiraMcp.runToolCalls, ih]
